import Mathlib

/-!
Verification of the commit-and-prove attestation engine of the ZKo1js
repository (src/lib/zk.ts, src/app/api/*/route.ts, and the web-worker
variants).  The o1js proving backend (Poseidon, ZkProgram.prove/verify,
Field.from/toString, proof JSON codec) is an external dependency; it is
modelled as an abstract `Backend` record, while everything the repository
itself does (encoding, validation, orchestration, error swallowing,
caching, HTTP response shaping) is translated directly from the source.
-/

namespace ZKo1js

/-- Order of the o1js `Field` (the Pallas base field), `Field.ORDER` in o1js. -/
def fieldOrder : ℕ := 28948022309329048855892746252171976963363056481941560715954676764349967630337

instance : NeZero fieldOrder := ⟨by decide⟩

/-- An o1js field element. -/
abbrev F : Type := ZMod fieldOrder

/-- UTF-8 encoding of a single character, as produced by the platform
`TextEncoder` used in `stringToField` (src/lib/zk.ts line 22). -/
def utf8Bytes (c : Char) : List ℕ :=
  let n := c.toNat
  if n < 128 then [n]
  else if n < 2048 then [192 + n / 64, 128 + n % 64]
  else if n < 65536 then [224 + n / 4096, 128 + n / 64 % 64, 128 + n % 64]
  else [240 + n / 262144, 128 + n / 4096 % 64, 128 + n / 64 % 64, 128 + n % 64]

/-- `encoder.encode(str)`: the UTF-8 byte sequence of a string. -/
def encodeUTF8 (s : String) : List ℕ := s.data.flatMap utf8Bytes

/-- The BigInt built by the reduce in `stringToField`
(src/lib/zk.ts line 26): `bytes.reduce((acc, byte, i) => acc + byte * 256^i, 0n)`. -/
def bytesToNat (bytes : List ℕ) : ℕ :=
  bytes.enum.foldl (fun acc p => acc + p.2 * 256 ^ p.1) 0

/-- `stringToField` from src/lib/zk.ts lines 20-27: encode to UTF-8 bytes,
accumulate the base-256 little-endian BigInt, then `Field.from` (reduction
modulo `fieldOrder` is performed by the `ℕ → ZMod fieldOrder` cast). -/
def stringToField (s : String) : F := (bytesToNat (encodeUTF8 s) : ℕ)

/-- Spec-side reading of the encoder (spec section 4.1): the byte sequence read
as digits of a base-256 little-endian integer. -/
def bytesLEValue : List ℕ → ℕ
  | [] => 0
  | b :: bs => b + 256 * bytesLEValue bs

lemma enumFrom_foldl (l : List ℕ) : ∀ n a : ℕ,
    (List.enumFrom n l).foldl (fun acc p => acc + p.2 * 256 ^ p.1) a
      = a + 256 ^ n * bytesLEValue l := by
  induction l with
  | nil => intro n a; simp [bytesLEValue, List.enumFrom]
  | cons b bs ih =>
      intro n a
      show (List.enumFrom (n + 1) bs).foldl (fun acc p => acc + p.2 * 256 ^ p.1)
          (a + b * 256 ^ n) = a + 256 ^ n * bytesLEValue (b :: bs)
      rw [ih (n + 1)]
      simp only [bytesLEValue, pow_succ]
      ring

lemma bytesToNat_eq_bytesLEValue (l : List ℕ) : bytesToNat l = bytesLEValue l := by
  have h := enumFrom_foldl l 0 0
  simpa [bytesToNat, List.enum] using h

/-- C8: for every string `s`, `stringToField s` is the integer obtained by
reading the UTF-8 bytes of `s` as base-256 little-endian digits, reduced
modulo the field modulus; the empty string encodes to the additive
identity 0. -/
theorem stringToField_le_base256_mod (s : String) :
    (stringToField s).val = bytesLEValue (encodeUTF8 s) % fieldOrder ∧
      stringToField "" = 0 := by
  constructor
  · rw [stringToField, bytesToNat_eq_bytesLEValue, ZMod.val_natCast]
  · show ((bytesToNat (encodeUTF8 "") : ℕ) : F) = 0
    norm_num [encodeUTF8, bytesToNat]

/-- First collision witness: 32 ASCII characters whose byte values, read
little-endian, give an integer `v` below the field modulus. -/
def collisionA : String :=
  "\x30\x30\x30\x30\x30\x30\x30\x67\x30\x30\x31\x30\x30\x67\x30\x30\x30\x30\x30\x30\x30\x30\x30\x30\x30\x30\x30\x30\x30\x30\x30\x30"

/-- Second collision witness: 32 ASCII characters whose byte values, read
little-endian, give exactly `v + fieldOrder`, so the modular reduction in
`stringToField` maps both strings to the same field element. -/
def collisionB : String :=
  "\x31\x30\x30\x30\x1d\x61\x5d\x00\x4c\x29\x7e\x39\x2c\x00\x77\x52\x30\x30\x30\x30\x30\x30\x30\x30\x30\x30\x30\x30\x30\x30\x30\x70"

/-- C9: two distinct strings encode to the same field element; the second
string's byte-integer exceeds the field modulus, so the modular reduction
makes `stringToField` non-injective. -/
theorem stringToField_collision :
    (collisionA == collisionB) = false ∧
      stringToField collisionA = stringToField collisionB ∧
      fieldOrder < bytesLEValue (encodeUTF8 collisionB) := by
  refine ⟨by decide, by decide, by decide⟩

/-- ASCII-level model of the platform `String.prototype.toUpperCase` on one
character: lowercase ASCII letters are shifted to the uppercase range, all
other characters are unchanged. -/
def upperChar (c : Char) : Char :=
  if 97 ≤ c.toNat ∧ c.toNat ≤ 122 then Char.ofNat (c.toNat - 32) else c

/-- Model of `s.toUpperCase()` as used in src/lib/zk.ts lines 123, 125,
204 and 206. -/
def toUpperCase (s : String) : String := ⟨s.data.map upperChar⟩

lemma upperChar_toNat_notLower :
    ∀ n ∈ Finset.Icc 97 122, ¬(97 ≤ (Char.ofNat (n - 32)).toNat ∧ (Char.ofNat (n - 32)).toNat ≤ 122) := by
  decide

lemma upperChar_idem (c : Char) : upperChar (upperChar c) = upperChar c := by
  unfold upperChar
  by_cases h : 97 ≤ c.toNat ∧ c.toNat ≤ 122
  · rw [if_pos h, if_neg (upperChar_toNat_notLower c.toNat (Finset.mem_Icc.mpr h))]
  · rw [if_neg h, if_neg h]

lemma toUpperCase_idem (s : String) : toUpperCase (toUpperCase s) = toUpperCase s := by
  show String.mk ((s.data.map upperChar).map upperChar) = String.mk (s.data.map upperChar)
  rw [List.map_map]
  congr 1
  exact List.map_congr_left (fun c _ => upperChar_idem c)

/-- Model of an o1js proof object as reconstructed by `KYCProof.fromJSON`: it
carries the public input it was produced for plus opaque backend payload. -/
structure ProofObj where
  publicInput : F
  payload : ℕ
deriving DecidableEq

/-- Abstract model of the o1js operations consumed by src/lib/zk.ts.  Each
field corresponds to one backend call site:
`hash` is `Poseidon.hash` on three fields; `prove` is `KYCProgram.prove`
(which fails when the circuit constraint does not hold); `verify` is
`KYCProgram.verify` under the process-wide compiled verification key;
`toJSONStr` is `JSON.stringify(proof.toJSON())`; `parseProofString` is
`JSON.parse` applied to the serialized proof; `fromJSON` is
`KYCProof.fromJSON`; `fieldToString` is `Field.toString`; `parseField` is
`Field.from` on a string; `vkString` is `JSON.stringify(verificationKey)`. -/
structure Backend where
  hash : F → F → F → F
  prove : F → F → F → F → Except String ProofObj
  verify : ProofObj → Bool
  toJSONStr : ProofObj → String
  parseProofString : String → Except String String
  fromJSON : String → Except String ProofObj
  fieldToString : F → String
  parseField : String → Except String F
  vkString : String

/-- The `ZkProof` interface of src/lib/zk.ts lines 10-14 (the
AttestationBundle): serialized proof, public output and verification key. -/
structure ZkProof where
  proof : String
  publicOutput : String
  verificationKey : String
deriving DecidableEq

/-- Error kinds thrown by the modelled functions. -/
inductive ZkError where
  | validation
  | proofGeneration (msg : String)
deriving DecidableEq

/-- Cryptographic operations performed by `createProof`, recorded in order. -/
inductive CryptoOp where
  | encode
  | poseidon
  | compile
  | prove
deriving DecidableEq

/-- JS falsy test `!x` on a string argument: true for a missing (undefined)
argument and for the empty string. -/
def falsy : Option String → Bool
  | none => true
  | some s => s == ""

/-- `createProof` from src/lib/zk.ts lines 112-152, instrumented with the
list of cryptographic operations performed, in source order: the validation
check runs first and throws before any field encoding, hashing, compilation
or proving; otherwise the three fields are encoded (fullName and idNumber
upper-cased first), Poseidon-hashed, the program is compiled, the proof is
generated and the bundle is serialized. -/
def createProofT (B : Backend) (fullName dob idNumber : Option String) :
    Except ZkError ZkProof × List CryptoOp :=
  if falsy fullName || falsy dob || falsy idNumber then
    (Except.error ZkError.validation, [])
  else
    let fullNameField := stringToField (toUpperCase (fullName.getD ""))
    let dobField := stringToField (dob.getD "")
    let idNumberField := stringToField (toUpperCase (idNumber.getD ""))
    let expectedHash := B.hash fullNameField dobField idNumberField
    match B.prove expectedHash fullNameField dobField idNumberField with
    | Except.error e =>
        (Except.error (ZkError.proofGeneration e),
          [CryptoOp.encode, CryptoOp.encode, CryptoOp.encode, CryptoOp.poseidon,
            CryptoOp.compile, CryptoOp.prove])
    | Except.ok pf =>
        (Except.ok ⟨B.toJSONStr pf, B.fieldToString expectedHash, B.vkString⟩,
          [CryptoOp.encode, CryptoOp.encode, CryptoOp.encode, CryptoOp.poseidon,
            CryptoOp.compile, CryptoOp.prove])

/-- `createProof`: the result component of the instrumented model. -/
def createProof (B : Backend) (fullName dob idNumber : Option String) :
    Except ZkError ZkProof :=
  (createProofT B fullName dob idNumber).1

/-- `api.createProof` from the web worker, src/unnamed/part_001 lines 99-134,
instrumented like `createProofT`.  Unlike the src/lib/zk.ts variant it has NO
validation check: the three fields are encoded (fullName and idNumber
upper-cased first), Poseidon-hashed, the program is compiled and the proof
is generated unconditionally, empty strings included. -/
def workerCreateProofT (B : Backend) (fullName dob idNumber : String) :
    Except ZkError ZkProof × List CryptoOp :=
  let fullNameField := stringToField (toUpperCase fullName)
  let dobField := stringToField dob
  let idNumberField := stringToField (toUpperCase idNumber)
  let expectedHash := B.hash fullNameField dobField idNumberField
  match B.prove expectedHash fullNameField dobField idNumberField with
  | Except.error e =>
      (Except.error (ZkError.proofGeneration e),
        [CryptoOp.encode, CryptoOp.encode, CryptoOp.encode, CryptoOp.poseidon,
          CryptoOp.compile, CryptoOp.prove])
  | Except.ok pf =>
      (Except.ok ⟨B.toJSONStr pf, B.fieldToString expectedHash, B.vkString⟩,
        [CryptoOp.encode, CryptoOp.encode, CryptoOp.encode, CryptoOp.poseidon,
          CryptoOp.compile, CryptoOp.prove])

/-- The body of the `try` block of `verifyProof` (src/lib/zk.ts lines
164-183): `JSON.parse(proof.proof)`, then `Field.from(proof.publicOutput)`
(result bound but never used), then `KYCProof.fromJSON`, then
`KYCProgram.verify(proofObj)`.  The bundle's `verificationKey` field is
never read. -/
def verifyProofE (B : Backend) (p : ZkProof) : Except String Bool :=
  match B.parseProofString p.proof with
  | Except.error e => Except.error e
  | Except.ok proofJson =>
    match B.parseField p.publicOutput with
    | Except.error e => Except.error e
    | Except.ok _ =>
      match B.fromJSON proofJson with
      | Except.error e => Except.error e
      | Except.ok proofObj => Except.ok (B.verify proofObj)

/-- `verifyProof` from src/lib/zk.ts lines 163-188: the catch-all returns
`false` on any error thrown inside the try block. -/
def verifyProof (B : Backend) (p : ZkProof) : Bool :=
  match verifyProofE B p with
  | Except.ok b => b
  | Except.error _ => false

/-- `calculateExpectedHash` from src/lib/zk.ts lines 199-210: upper-case
fullName and idNumber, encode all three fields, Poseidon-hash them and
return the hash as a string. -/
def calculateExpectedHash (B : Backend) (fullName dob idNumber : String) : String :=
  B.fieldToString
    (B.hash (stringToField (toUpperCase fullName)) (stringToField dob)
      (stringToField (toUpperCase idNumber)))

/-- JSON values as produced by `NextResponse.json`. -/
inductive Json where
  | null
  | bool (b : Bool)
  | str (s : String)
  | obj (fields : List (String × Json))

/-- Field lookup in a serialized JSON object. -/
def lookupField (j : Json) (k : String) : Option Json :=
  match j with
  | Json.obj fs => fs.lookup k
  | _ => none

/-- Whether a JSON value is a boolean. -/
def Json.isBool : Json → Bool
  | Json.bool _ => true
  | _ => false

/-- JSON serialization of a pending JS Promise: a Promise has no enumerable
own properties, so `JSON.stringify` (used by `NextResponse.json`) renders it
as the empty object. -/
def promiseJson : Json := Json.obj []

/-- Model of `POST` in src/app/api/verify/route.ts lines 4-11.  The handler
calls `verifyProof(zkProof)` WITHOUT awaiting it, so the `verified` field of
the response body is the pending Promise object itself, which serializes as
`promiseJson`; the boolean computed by `verifyProof` never reaches the
response. -/
def verifyRoutePOST (zkProof : Option ZkProof) : Json :=
  match zkProof with
  | none => Json.obj [("error", Json.str "zkProof required")]
  | some _ => Json.obj [("verified", promiseJson)]

/-- State of the module-level compile cache of src/lib/zk.ts lines 79-99
(identical in the worker, src/unnamed/part_001 lines 48-64):
`cache` is the `compiledProgram` variable, holding the id of the cached
CompiledProgram object; `compileCount` counts started runs of the expensive
`KYCProgram.compile()`; `pending` holds callers suspended at the `await`
together with the id of the compilation they started (each run creates a
fresh object, numbered in order); `results` records completed calls with
the id of the object they returned. -/
structure CacheState where
  cache : Option ℕ
  compileCount : ℕ
  pending : List (ℕ × ℕ)
  results : List (ℕ × ℕ)
deriving DecidableEq

/-- The cache state at module load: `compiledProgram = null`. -/
def initCache : CacheState := ⟨none, 0, [], []⟩

/-- Events of the single-threaded JS event loop relevant to
`compileProgram`: `call cid` runs the synchronous prefix of a call (the
`if (compiledProgram) return compiledProgram;` check, and, on a miss,
starting `KYCProgram.compile()`); `complete cid` resumes caller `cid` after
its awaited compilation resolves (it assigns `compiledProgram` and
returns). -/
inductive CacheEvent where
  | call (cid : ℕ)
  | complete (cid : ℕ)
deriving DecidableEq

/-- One event-loop step of `compileProgram`. -/
def cacheStep (s : CacheState) : CacheEvent → CacheState
  | CacheEvent.call cid =>
    match s.cache with
    | some k => { s with results := s.results ++ [(cid, k)] }
    | none =>
        { s with compileCount := s.compileCount + 1,
                 pending := s.pending ++ [(cid, s.compileCount)] }
  | CacheEvent.complete cid =>
    match s.pending.lookup cid with
    | some k =>
        { cache := some k, compileCount := s.compileCount,
          pending := s.pending.eraseP (fun q => q.1 == cid),
          results := s.results ++ [(cid, k)] }
    | none => s

/-- Run a schedule of event-loop steps from the module-load state. -/
def cacheRun (evts : List CacheEvent) : CacheState := evts.foldl cacheStep initCache

/-- Concrete backend instance behaving per the o1js contract on the happy
path; used to instantiate the abstract theorems. -/
def backendA : Backend where
  hash := fun _ b _ => b
  prove := fun x _ b _ =>
    if b = x then Except.ok ⟨x, 0⟩ else Except.error "constraint unsatisfied"
  verify := fun _ => true
  toJSONStr := fun _ => "proofjson"
  parseProofString := fun s => Except.ok s
  fromJSON := fun _ => Except.ok ⟨stringToField "B", 0⟩
  fieldToString := fun x => String.mk (List.replicate x.val 'a')
  parseField := fun _ => Except.ok 0
  vkString := "vk"

/-- Concrete backend instance whose decoder rejects everything except the
string "goodproof" and whose cryptographic verification always fails; used
to exercise the error paths of `verifyProof`. -/
def backendB : Backend where
  hash := fun _ _ _ => 0
  prove := fun _ _ _ _ => Except.error "unused"
  verify := fun _ => false
  toJSONStr := fun _ => "proofjson"
  parseProofString := fun s =>
    if s = "goodproof" then Except.ok s else Except.error "SyntaxError"
  fromJSON := fun _ => Except.ok ⟨0, 0⟩
  fieldToString := fun _ => "0"
  parseField := fun _ => Except.ok 0
  vkString := "vk"

lemma replicate_string_injective :
    Function.Injective (fun x : F => String.mk (List.replicate x.val 'a')) := by
  intro x y h
  have hdata : List.replicate x.val 'a' = List.replicate y.val 'a' :=
    congrArg String.data h
  have hlen : x.val = y.val := by
    simpa using congrArg List.length hdata
  exact ZMod.val_injective fieldOrder hlen

lemma cacheStep_preserves (s : CacheState) (e : CacheEvent) (h : s.cache.isSome) :
    ((cacheStep s e).cache).isSome ∧ (cacheStep s e).compileCount = s.compileCount := by
  obtain ⟨k, hk⟩ := Option.isSome_iff_exists.mp h
  cases e with
  | call cid => simp [cacheStep, hk]
  | complete cid =>
      cases hlk : s.pending.lookup cid with
      | none => simp [cacheStep, hlk, hk]
      | some j => simp [cacheStep, hlk]

lemma cacheFoldl_count (evts : List CacheEvent) : ∀ s : CacheState, s.cache.isSome →
    (evts.foldl cacheStep s).compileCount = s.compileCount := by
  induction evts with
  | nil => intro s _; rfl
  | cons e es ih =>
      intro s h
      have hp := cacheStep_preserves s e h
      calc (List.foldl cacheStep (cacheStep s e) es).compileCount
          = (cacheStep s e).compileCount := ih _ hp.1
        _ = s.compileCount := hp.2

/-- C1: in the verify route's response to a POST carrying an
AttestationBundle, the `verified` field is NOT a boolean: the handler never
awaits `verifyProof`, so the field is the pending Promise, serialized as the
empty JSON object. -/
theorem verified_field_is_not_boolean :
    lookupField (verifyRoutePOST (some ⟨"p", "1", "vk"⟩)) "verified" = some promiseJson ∧
      Json.isBool promiseJson = false :=
  ⟨rfl, rfl⟩

/-- C2: `verifyProof` does not depend on the bundle's `publicOutput` or
`verificationKey`: any two bundles carrying the same proof string and any
parseable `publicOutput` strings produce the same verification result, so
the result is determined by the proof string alone, contrary to the claim. -/
theorem verifyProof_ignores_publicOutput_and_verificationKey
    (B : Backend) (p1 p2 : ZkProof) (hp : p1.proof = p2.proof)
    (h1 : ∃ x, B.parseField p1.publicOutput = Except.ok x)
    (h2 : ∃ y, B.parseField p2.publicOutput = Except.ok y) :
    verifyProof B p1 = verifyProof B p2 := by
  obtain ⟨x, hx⟩ := h1
  obtain ⟨y, hy⟩ := h2
  unfold verifyProof verifyProofE
  rw [hp]
  cases hpp : B.parseProofString p2.proof with
  | error e => simp
  | ok j => simp [hx, hy]

/-- C2 witness: two bundles differing only in `publicOutput` and
`verificationKey` verify identically. -/
theorem verifyProof_ignores_publicOutput_and_verificationKey_w :
    verifyProof backendB ⟨"goodproof", "1", "vkA"⟩
      = verifyProof backendB ⟨"goodproof", "2", "vkB"⟩ :=
  verifyProof_ignores_publicOutput_and_verificationKey backendB
    ⟨"goodproof", "1", "vkA"⟩ ⟨"goodproof", "2", "vkB"⟩ rfl ⟨0, rfl⟩ ⟨0, rfl⟩

/-- C3: for non-empty inputs, verifying the bundle returned by `createProof`
yields true, given that the backend honours its contract at the produced
proof: proving an honestly computed hash succeeds with a verifying proof,
and the proof JSON codec round-trips. -/
theorem createProof_verifyProof_roundtrip (B : Backend) (f d i : String)
    (hf : f ≠ "") (hd : d ≠ "") (hi : i ≠ "") (pf : ProofObj)
    (hp : B.prove
        (B.hash (stringToField (toUpperCase f)) (stringToField d) (stringToField (toUpperCase i)))
        (stringToField (toUpperCase f)) (stringToField d) (stringToField (toUpperCase i))
        = Except.ok pf)
    (hv : B.verify pf = true)
    (hjson : ∃ j, B.parseProofString (B.toJSONStr pf) = Except.ok j ∧
        B.fromJSON j = Except.ok pf)
    (hpo : ∃ y, B.parseField (B.fieldToString
        (B.hash (stringToField (toUpperCase f)) (stringToField d) (stringToField (toUpperCase i))))
        = Except.ok y) :
    ∃ bundle, createProof B (some f) (some d) (some i) = Except.ok bundle ∧
      verifyProof B bundle = true := by
  obtain ⟨j, hj1, hj2⟩ := hjson
  obtain ⟨y, hy⟩ := hpo
  have h1 : (f == "") = false := beq_eq_false_iff_ne.mpr hf
  have h2 : (d == "") = false := beq_eq_false_iff_ne.mpr hd
  have h3 : (i == "") = false := beq_eq_false_iff_ne.mpr hi
  refine ⟨⟨B.toJSONStr pf,
      B.fieldToString (B.hash (stringToField (toUpperCase f)) (stringToField d)
        (stringToField (toUpperCase i))), B.vkString⟩, ?_, ?_⟩
  · simp [createProof, createProofT, falsy, h1, h2, h3, hp]
  · simp [verifyProof, verifyProofE, hj1, hj2, hy, hv]

/-- C3 witness: a concrete non-empty triple round-trips through the concrete
backend. -/
theorem createProof_verifyProof_roundtrip_w :
    ∃ bundle, createProof backendA (some "A") (some "B") (some "C") = Except.ok bundle ∧
      verifyProof backendA bundle = true :=
  createProof_verifyProof_roundtrip backendA "A" "B" "C"
    (by decide) (by decide) (by decide) ⟨stringToField "B", 0⟩ rfl rfl
    ⟨"proofjson", rfl, rfl⟩ ⟨0, rfl⟩

/-- C4: the worker variant `api.createProof` has no validation check: called
with all three fields empty it performs the full cryptographic pipeline
(three field encodings, the Poseidon hash, compilation, proving) and returns
a bundle, never a validation error — while the src/lib/zk.ts variant rejects
the same input with the validation error before any cryptographic work. -/
theorem worker_createProof_no_validation :
    workerCreateProofT backendA "" "" ""
        = (Except.ok ⟨"proofjson", "", "vk"⟩,
            [CryptoOp.encode, CryptoOp.encode, CryptoOp.encode, CryptoOp.poseidon,
              CryptoOp.compile, CryptoOp.prove]) ∧
      createProofT backendA (some "") (some "") (some "")
        = (Except.error ZkError.validation, []) :=
  ⟨rfl, rfl⟩

/-- C5 counterexample: a syntactically malformed proof string does NOT
surface a distinct parse-error kind: the parse failure raised inside the try
block is swallowed by the catch-all, and the caller observes exactly the
same boolean `false` as for a well-formed proof that merely fails
cryptographic verification. -/
theorem decode_error_collapsed_to_false_cex :
    verifyProofE backendB ⟨"bad", "1", "vk"⟩ = Except.error "SyntaxError" ∧
      verifyProofE backendB ⟨"goodproof", "1", "vk"⟩ = Except.ok false ∧
      verifyProof backendB ⟨"bad", "1", "vk"⟩
        = verifyProof backendB ⟨"goodproof", "1", "vk"⟩ :=
  ⟨rfl, rfl, rfl⟩

/-- C5 amended: any error raised while decoding (or anywhere inside the try
block) makes `verifyProof` return the boolean `false`; no distinct error
kind reaches the caller. -/
theorem decode_error_returns_false (B : Backend) (p : ZkProof) (e : String)
    (h : verifyProofE B p = Except.error e) : verifyProof B p = false := by
  simp [verifyProof, h]

/-- C5 amended witness: the malformed bundle yields `false`. -/
theorem decode_error_returns_false_w :
    verifyProof backendB ⟨"bad", "1", "vk"⟩ = false :=
  decode_error_returns_false backendB ⟨"bad", "1", "vk"⟩ "SyntaxError" rfl

/-- C6: a bundle whose proof string was tampered with verifies to `false`
rather than raising, provided the backend does not accept the tampered
proof (it either fails to decode or fails cryptographic verification); and
`verifyProof` never propagates an exception: it returns `true` exactly when
the try-block succeeds with `true`, and `false` in every other case. -/
theorem tampered_proof_returns_false_never_throws (B : Backend) (p : ZkProof) (t : String)
    (hrej : ∀ j q, B.parseProofString t = Except.ok j →
        B.fromJSON j = Except.ok q → B.verify q = false) :
    verifyProof B { p with proof := t } = false ∧
      ∀ q : ZkProof, verifyProof B q = true ↔ verifyProofE B q = Except.ok true := by
  constructor
  · unfold verifyProof verifyProofE
    cases hps : B.parseProofString t with
    | error e => simp
    | ok j =>
        cases hpf : B.parseField p.publicOutput with
        | error e => simp [hpf]
        | ok x =>
            cases hfj : B.fromJSON j with
            | error e => simp [hpf, hfj]
            | ok q => simp [hpf, hfj, hrej j q hps hfj]
  · intro q
    unfold verifyProof
    cases hE : verifyProofE B q with
    | error e => simp
    | ok b => cases b <;> simp

/-- C6 witness: a tampered proof string yields `false` on the concrete
backend, and the totality property holds there. -/
theorem tampered_proof_returns_false_never_throws_w :
    verifyProof backendB ⟨"bad", "1", "vk"⟩ = false ∧
      ∀ q : ZkProof, verifyProof backendB q = true ↔
        verifyProofE backendB q = Except.ok true :=
  tampered_proof_returns_false_never_throws backendB ⟨"goodproof", "1", "vk"⟩ "bad"
    (fun _ _ _ _ => rfl)

/-- C7 counterexample: two `compileProgram()` calls that both run their
synchronous cache check before the first compilation completes each start
the expensive compilation (compileCount = 2) and return two distinct
CompiledProgram objects (ids 0 and 1), contradicting the single-flight
claim. -/
theorem concurrent_compile_duplicates_cex :
    (cacheRun [CacheEvent.call 1, CacheEvent.call 2,
        CacheEvent.complete 1, CacheEvent.complete 2]).compileCount = 2 ∧
      (cacheRun [CacheEvent.call 1, CacheEvent.call 2,
        CacheEvent.complete 1, CacheEvent.complete 2]).results = [(1, 0), (2, 1)] := by
  refine ⟨by decide, by decide⟩

/-- C7 amended: once some compilation has completed and populated the cache,
no schedule of further events ever starts another compilation, and any call
arriving at a populated cache immediately returns the cached
CompiledProgram object. -/
theorem compile_cached_after_first_completion (s : CacheState) (k : ℕ)
    (h : s.cache = some k) (evts : List CacheEvent) :
    (evts.foldl cacheStep s).compileCount = s.compileCount ∧
      ∀ cid, cacheStep s (CacheEvent.call cid)
        = { s with results := s.results ++ [(cid, k)] } := by
  constructor
  · exact cacheFoldl_count evts s (by simp [h])
  · intro cid
    simp [cacheStep, h]

/-- C7 amended witness: after one call has compiled and completed, two more
calls cause no further compilation and are served from the cache. -/
theorem compile_cached_after_first_completion_w :
    (cacheRun [CacheEvent.call 1, CacheEvent.complete 1]).cache = some 0 ∧
      (([CacheEvent.call 2, CacheEvent.call 3].foldl cacheStep
          (cacheRun [CacheEvent.call 1, CacheEvent.complete 1])).compileCount
        = (cacheRun [CacheEvent.call 1, CacheEvent.complete 1]).compileCount ∧
      ∀ cid, cacheStep (cacheRun [CacheEvent.call 1, CacheEvent.complete 1])
          (CacheEvent.call cid)
        = { cacheRun [CacheEvent.call 1, CacheEvent.complete 1] with
            results := (cacheRun [CacheEvent.call 1, CacheEvent.complete 1]).results
              ++ [(cid, 0)] }) :=
  ⟨by decide,
    compile_cached_after_first_completion
      (cacheRun [CacheEvent.call 1, CacheEvent.complete 1]) 0 (by decide)
      [CacheEvent.call 2, CacheEvent.call 3]⟩

/-- C10: the commitment upper-cases fullName and idNumber but not dob:
`calculateExpectedHash` is invariant under upper-casing fullName and
idNumber, while two dob values with different encodings give different
commitments whenever the backend hash separates them in its middle argument
and the field-to-string rendering is injective. -/
theorem calculateExpectedHash_case_folding (B : Backend) (f d i : String)
    (hstr : Function.Injective B.fieldToString)
    (hhash : ∀ x y : F,
        B.hash (stringToField (toUpperCase f)) x (stringToField (toUpperCase i))
          = B.hash (stringToField (toUpperCase f)) y (stringToField (toUpperCase i)) → x = y)
    (d2 : String) (hne : stringToField d ≠ stringToField d2) :
    calculateExpectedHash B f d i
        = calculateExpectedHash B (toUpperCase f) d (toUpperCase i) ∧
      calculateExpectedHash B f d i ≠ calculateExpectedHash B f d2 i := by
  constructor
  · unfold calculateExpectedHash
    rw [toUpperCase_idem, toUpperCase_idem]
  · intro hcontra
    unfold calculateExpectedHash at hcontra
    exact hne (hhash _ _ (hstr hcontra))

/-- C10 witness: with a concrete backend whose hash is injective in the dob
slot, upper-casing fullName and idNumber leaves the commitment unchanged
while changing the case of dob changes it. -/
theorem calculateExpectedHash_case_folding_w :
    stringToField "b" ≠ stringToField "B" ∧
      (calculateExpectedHash backendA "a" "b" "c"
          = calculateExpectedHash backendA (toUpperCase "a") "b" (toUpperCase "c") ∧
        calculateExpectedHash backendA "a" "b" "c"
          ≠ calculateExpectedHash backendA "a" "B" "c") :=
  ⟨by decide,
    calculateExpectedHash_case_folding backendA "a" "b" "c"
      replicate_string_injective (fun _ _ h => h) "B" (by decide)⟩

end ZKo1js
